import Mathlib

/-!
Verification development for the CNPJ data pipeline
(src/src/processor.py and src/src/database/sqlite.py).

Shallow embedding conventions:
- a parsed CSV file is a `List Row` of already-split records (polars
  read_csv with separator ";", has_header=False, null_values=[""],
  ignore_errors=True is the parser; rows it drops as structurally
  malformed are simply not in the list);
- a cell is `Option String` (null_values=[""] turns empty cells into
  null);
- machine floats produced by cast(pl.Float64) are modelled as rationals;
- the SQLite storage reachable through bulk_upsert is a finite map from
  (table, natural key) to the last row upserted for that key, which is
  exactly the effect of INSERT OR REPLACE keyed by the table primary
  key;
- exceptions are modelled with Except, file contents with an explicit
  path-to-content map.
-/

namespace CNPJ

/-- FILE_MAPPINGS from processor.py lines 13-24: file pattern to table name. -/
def FILE_MAPPINGS : List (String × String) :=
  [("CNAECSV", "cnaes"), ("MOTICSV", "motivos"), ("MUNICCSV", "municipios"),
   ("NATJUCSV", "naturezas_juridicas"), ("PAISCSV", "paises"),
   ("QUALSCSV", "qualificacoes_socios"), ("EMPRECSV", "empresas"),
   ("ESTABELE", "estabelecimentos"), ("SOCIOCSV", "socios"),
   ("SIMPLESCSV", "dados_simples")]

/-! ## Storage model (src/src/database/sqlite.py)

`Storage TRow Key` maps a table name and a natural-key value to the row
currently stored under that key, if any. INSERT OR REPLACE on one row
replaces whatever row currently holds its key. -/

/-- The visible state of the SQLite database: per table, per natural key,
the stored row. -/
def Storage (TRow Key : Type) : Type := String → Key → Option TRow

section StorageModel

variable {Row TRow Key : Type} [DecidableEq Key]

/-- Effect of inserting one row with INSERT OR REPLACE into `table`,
where `key` extracts the natural key the table is keyed by. -/
def applyRow (key : TRow → Key) (table : String) (st : Storage TRow Key)
    (r : TRow) : Storage TRow Key :=
  fun t k =>
    if t = table then (if k = key r then some r else st t k) else st t k

/-- Effect of executemany over the rows in order (later rows with the same
key replace earlier ones), sqlite.py lines 69-72. -/
def applyRows (key : TRow → Key) (table : String) (df : List TRow)
    (st : Storage TRow Key) : Storage TRow Key :=
  df.foldl (applyRow key table) st

/-- SQLiteAdapter.bulk_upsert, sqlite.py lines 57-75: if the dataframe has
zero rows, return at once with no SQL executed; otherwise run one
INSERT OR REPLACE executemany over all rows. The second component is the
list of SQL statements issued by the call. -/
def bulk_upsert (key : TRow → Key) (df : List TRow) (table : String)
    (st : Storage TRow Key) : Storage TRow Key × List String :=
  if df.length = 0 then (st, [])
  else (applyRows key table df st, ["INSERT OR REPLACE INTO " ++ table])

/-! ## Chunked loader (processor.py, Processor._process_large_file_chunked,
lines 542-646)

The loop reads the normalized file with skip_rows=offset, n_rows=chunk_size
(modelled as `(file.drop offset).take chunkSize`), transforms the window
(`_apply_transformations` acts row-wise, modelled by a per-row `transform`
function), bulk-upserts it, advances offset by the number of rows read,
and stops either on a zero-row read (line 599) or when
`offset % chunk_size != 0` after the upsert (line 628). -/

/-- Loop-visible state of the chunked loader. `upserted` is the
concatenation of all transformed windows handed to bulk_upsert, in order;
`totalProcessed` is the total_processed counter of line 579; `reads` counts
the window read_csv calls issued (batch_num of line 578). -/
structure ChunkedState (TRow Key : Type) where
  storage : Storage TRow Key
  upserted : List TRow
  totalProcessed : Nat
  reads : Nat

/-- The while-True loop of lines 581-629: read a window at the current
offset, stop on an empty read, otherwise transform, upsert, advance the
offset, and continue only while the offset stays an exact multiple of the
window size. -/
def chunkedLoop (transform : Row → TRow) (key : TRow → Key) (table : String)
    (file : List Row) (chunkSize : Nat) (offset : Nat)
    (s : ChunkedState TRow Key) : ChunkedState TRow Key :=
  if h : ((file.drop offset).take chunkSize).length = 0 then
    { s with reads := s.reads + 1 }
  else
    let chunk := (file.drop offset).take chunkSize
    let tchunk := chunk.map transform
    let s' : ChunkedState TRow Key :=
      { storage := (bulk_upsert key tchunk table s.storage).1
        upserted := s.upserted ++ tchunk
        totalProcessed := s.totalProcessed + chunk.length
        reads := s.reads + 1 }
    if (offset + chunk.length) % chunkSize ≠ 0 then s'
    else chunkedLoop transform key table file chunkSize (offset + chunk.length) s'
termination_by file.length - offset
decreasing_by
  have hlen : 0 < ((file.drop offset).take chunkSize).length := Nat.pos_of_ne_zero h
  simp only [List.length_take, List.length_drop] at hlen ⊢
  omega

/-- Entry point of _process_large_file_chunked, lines 576-633: start at
offset 0 with zeroed counters. The source fixes chunk_size = 1_000_000 at
line 548; the window size is kept as a parameter here so the loop can be
analysed for every window size. -/
def process_large_file_chunked (transform : Row → TRow) (key : TRow → Key)
    (file : List Row) (table : String) (chunkSize : Nat)
    (st : Storage TRow Key) : ChunkedState TRow Key :=
  chunkedLoop transform key table file chunkSize 0
    { storage := st, upserted := [], totalProcessed := 0, reads := 0 }

/-- Modelled from the spec: the whole-file path of the data flow in
section 2 ("whole-file path: Record Transformer → Reference Reconciler →
single bulk upsert"). process_file (processor.py lines 434-467) parses the
whole file, applies the row-wise transformations and returns the dataframe
and table name; the orchestration that performs the single bulk upsert of
that dataframe is not under src/, so it is modelled here as one
bulk_upsert of the fully transformed file. -/
def whole_file_path (transform : Row → TRow) (key : TRow → Key)
    (file : List Row) (table : String) (st : Storage TRow Key) :
    Storage TRow Key :=
  (bulk_upsert key (file.map transform) table st).1

end StorageModel

/-! ## Result shape of process_file (processor.py lines 400-467 and 642)

process_file is annotated `-> Tuple[pl.DataFrame, str]` and the small-file
branch returns the pair (df, table_name) at line 467. The large-file
branch delegates to _process_large_file_chunked (line 433), whose final
statement is `return None` (line 642) — a bare None, not a pair. -/

/-- The two result shapes process_file can produce: a (dataframe, table
name) pair from the small-file branch, or the bare None propagated from
the chunked branch. -/
inductive ProcessFileResult (DF : Type) where
  | pair (df : DF) (table : String)
  | bareNone
  deriving DecidableEq

/-- Return value of _process_large_file_chunked, line 642: `return None`. -/
def process_large_file_chunked_result (DF : Type) : ProcessFileResult DF :=
  ProcessFileResult.bareNone

/-- Result shape of process_file (lines 426-467): the branch is chosen by
comparing the normalized file size in MB against config.max_file_size_mb
with a strict greater-than (line 426). Sizes are rationals, modelling the
float MB values of _get_file_size_mb. -/
def process_file_result {DF : Type} (utf8SizeMb maxFileSizeMb : ℚ)
    (df : DF) (table : String) : ProcessFileResult DF :=
  if utf8SizeMb > maxFileSizeMb then process_large_file_chunked_result DF
  else ProcessFileResult.pair df table

/-! ## Reference reconciliation (processor.py lines 231-398)

A reference row carries a code and a description (COLUMN_MAPPINGS for
MOTICSV and PAISCSV, lines 29 and 32). The external source adapter
(src/reference_data.py, class ReferenceDataManager) is not under src/;
its diff methods are modelled from the spec. A fetch that raises
(ImportError or any other exception) is an `Except.error`. -/

/-- One row of a reference table: codigo and descricao. -/
structure RefRow where
  codigo : String
  descricao : String
  deriving DecidableEq

/-- Modelled from the spec: ReferenceDataManager.diff_motivos_data
(src/reference_data.py, not under src/). Spec 4.5: "compute the
set-difference of external codes not in the existing set"; spec 3
(ReferenceDiff): "set of codes found in an external source but absent
from the batch/table". Given the external source rows and the existing
codes, keep exactly the external rows whose code is missing. -/
def diff_motivos_data (external : List RefRow) (existingCodes : List String) :
    List RefRow :=
  external.filter (fun r => ¬ r.codigo ∈ existingCodes)

/-- Modelled from the spec: ReferenceDataManager.diff_paises_data
(src/reference_data.py, not under src/), same set-difference contract as
diff_motivos_data per spec 4.5. -/
def diff_paises_data (external : List RefRow) (existingCodes : List String) :
    List RefRow :=
  external.filter (fun r => ¬ r.codigo ∈ existingCodes)

/-- Processor._enhance_motivos_data on the dataframe path, processor.py
lines 245-303: fetch the reconciliation source (the import plus diff call
inside the try block; a raising source is Except.error), compute existing
codes from the dataframe codigo column, take the missing rows, and
concatenate them if any; on ImportError or any other exception, return
the official dataframe unchanged (lines 296-303). -/
def enhance_motivos_data (fetch : Except String (List RefRow))
    (df : List RefRow) : List RefRow :=
  match fetch with
  | Except.error _ => df
  | Except.ok external =>
      let existing_codes := df.map RefRow.codigo
      let missing_df := diff_motivos_data external existing_codes
      if missing_df.length > 0 then df ++ missing_df else df

/-- Processor._enhance_paises_data on the dataframe path, processor.py
lines 319-377: same structure as enhance_motivos_data with the hardcoded
paises source (lines 370-377 return the official dataframe on any
exception). -/
def enhance_paises_data (fetch : Except String (List RefRow))
    (df : List RefRow) : List RefRow :=
  match fetch with
  | Except.error _ => df
  | Except.ok external =>
      let existing_codes := df.map RefRow.codigo
      let missing_df := diff_paises_data external existing_codes
      if missing_df.length > 0 then df ++ missing_df else df

/-! ## Record transformations (processor.py lines 482-540)

_apply_transformations works column by column; each rule is modelled at
the cell level together with its column map. A cell is Option String on
input (null_values=[""]). -/

/-- polars str.replace with default n=1: replace the first occurrence of
the pattern character. Used at line 518 with pattern "," and value ".". -/
def replaceFirstChar : List Char → Char → Char → List Char
  | [], _, _ => []
  | x :: xs, c, d => if x = c then d :: xs else x :: replaceFirstChar xs c d

/-- Numeric value of a digit run (most significant first). -/
def digitsToNat (cs : List Char) : Nat :=
  cs.foldl (fun a c => a * 10 + (c.toNat - 48)) 0

/-- Whether every character is a decimal digit. -/
def allDigits (cs : List Char) : Bool :=
  cs.all Char.isDigit

/-- Parse an unsigned decimal literal: digits with at most one point,
at least one digit overall. Models the accepting fragment of the polars
Float64 string cast relevant to the pipeline inputs; the float value is
represented exactly as a rational. -/
def parseUnsigned (cs : List Char) : Option ℚ :=
  match cs.splitOn '.' with
  | [intPart] =>
      if intPart ≠ [] ∧ allDigits intPart then some (digitsToNat intPart : ℚ)
      else none
  | [intPart, fracPart] =>
      if (intPart ≠ [] ∨ fracPart ≠ []) ∧ allDigits intPart ∧ allDigits fracPart then
        some ((digitsToNat intPart : ℚ) +
          (digitsToNat fracPart : ℚ) / ((10 : ℚ) ^ fracPart.length))
      else none
  | _ => none

/-- Fallible float parse with optional sign: cast(pl.Float64, strict=False)
on one cell; unparseable input becomes none instead of raising. -/
def parseFloatValue (s : String) : Option ℚ :=
  match s.data with
  | '-' :: rest => (parseUnsigned rest).map (fun q => -q)
  | '+' :: rest => parseUnsigned rest
  | cs => parseUnsigned cs

/-- One cell of a numeric column, processor.py line 518:
str.replace(",", ".") then cast(pl.Float64, strict=False). A null cell
stays null; an unparseable cell becomes null. -/
def transformNumericValue (v : Option String) : Option ℚ :=
  v.bind (fun s => parseFloatValue (String.mk (replaceFirstChar s.data ',' '.')))

/-- A whole numeric column, lines 515-519: the expression is applied to
every cell of the column independently. -/
def transformNumericColumn (col : List (Option String)) : List (Option ℚ) :=
  col.map transformNumericValue

/-- One cell of a date column, processor.py lines 525-530:
when(col == "0").then(None).otherwise(col). A null cell compares null
(not true) with "0" and falls through to otherwise, staying null. -/
def cleanDateValue (v : Option String) : Option String :=
  if v = some "0" then none else v

/-- A whole date column, lines 522-530. -/
def cleanDateColumn (col : List (Option String)) : List (Option String) :=
  col.map cleanDateValue

/-- Python str.zfill as used by polars str.zfill(3), line 491: left-pad
with zeros to the requested width, keeping a leading sign in front of the
padding; strings already at least that wide are unchanged. -/
def zfill (width : Nat) (s : String) : String :=
  if width ≤ s.data.length then s
  else
    match s.data with
    | c :: rest =>
        if c = '+' ∨ c = '-' then
          String.mk (c :: (List.replicate (width - s.data.length) '0' ++ rest))
        else String.mk (List.replicate (width - s.data.length) '0' ++ s.data)
    | [] => String.mk (List.replicate width '0')

/-- polars str.strip_chars() with no argument, line 490: remove leading
and trailing whitespace. -/
def stripChars (cs : List Char) : List Char :=
  ((cs.dropWhile Char.isWhitespace).reverse.dropWhile Char.isWhitespace).reverse

/-- One cell of the pais column, Processor._transform_country_codes,
processor.py lines 482-497: when the cell is non-null and not the empty
string, strip surrounding whitespace and zero-fill to 3 characters;
otherwise keep the cell as it is. -/
def transformCountryCodeValue (v : Option String) : Option String :=
  match v with
  | none => none
  | some s => if s ≠ "" then some (zfill 3 (String.mk (stripChars s.data)))
              else some s

/-- The whole pais column of an estabelecimentos dataframe,
lines 484-495. -/
def transformCountryCodeColumn (col : List (Option String)) :
    List (Option String) :=
  col.map transformCountryCodeValue

/-! ## Encoding conversion (processor.py,
Processor._convert_file_encoding_chunked, lines 170-229)

The filesystem is a map from path to content; the loop reads bounded
chunks and appends each to the output file. Each iteration either yields
the next decoded chunk or raises an I/O error; a read of the empty string
means end of input (line 205). On any exception the handler at lines
225-229 deletes the output file if it exists and re-raises. -/

/-- Filesystem state: content of each path, none when the path does not
exist. -/
def FS : Type := String → Option String

/-- Write, create or delete (with none) one path. -/
def setFile (fs : FS) (path : String) (content : Option String) : FS :=
  fun p => if p = path then content else fs p

/-- The read-write loop of lines 202-209 run to completion: each list
element is one iteration outcome (the next chunk, or the I/O error that
iteration raised). Returns the full output content, or the error together
with the partial content written before it. -/
def runConvertLoop : List (Except String String) → String →
    Except (String × String) String
  | [], acc => Except.ok acc
  | Except.ok c :: rest, acc =>
      if c = "" then Except.ok acc else runConvertLoop rest (acc ++ c)
  | Except.error e :: _, acc => Except.error (e, acc)

/-- Processor._convert_file_encoding_chunked, lines 189-229: stream the
conversion into the output path; on success the output file holds the
converted content; on any exception, delete the partially written output
file if it exists (lines 227-228) and propagate the error (line 229). -/
def convert_file_encoding_chunked (iterations : List (Except String String))
    (fs : FS) (outputFile : String) : Except (String × FS) FS :=
  match runConvertLoop iterations "" with
  | Except.ok content => Except.ok (setFile fs outputFile (some content))
  | Except.error (e, partialContent) =>
      let fsAtFailure := setFile fs outputFile (some partialContent)
      let fsCleaned :=
        if (fsAtFailure outputFile).isSome then setFile fsAtFailure outputFile none
        else fsAtFailure
      Except.error (e, fsCleaned)

/-! # Theorems -/

section StorageProofs

variable {Row TRow Key : Type} [DecidableEq Key]

theorem bulk_upsert_fst (key : TRow → Key) (df : List TRow) (table : String)
    (st : Storage TRow Key) :
    (bulk_upsert key df table st).1 = applyRows key table df st := by
  unfold bulk_upsert
  split
  · next h =>
    have : df = [] := List.length_eq_zero.mp h
    subst this
    rfl
  · rfl

theorem applyRows_append (key : TRow → Key) (table : String)
    (l1 l2 : List TRow) (st : Storage TRow Key) :
    applyRows key table (l1 ++ l2) st =
      applyRows key table l2 (applyRows key table l1 st) := by
  unfold applyRows
  exact List.foldl_append _ _ _ _

/-- Loop invariant of the chunked loader: started at any offset that is an
exact multiple of the window size, the loop consumes exactly the remaining
suffix of the file, window by window in order, upserting each transformed
window once, and issues one window read per full-or-partial window plus
the final read that observes the end of the file. -/
theorem chunkedLoop_invariant (transform : Row → TRow) (key : TRow → Key)
    (table : String) (file : List Row) (cs : Nat) (hcs : 0 < cs) :
    ∀ (n offset : Nat) (s : ChunkedState TRow Key),
      file.length - offset ≤ n → offset % cs = 0 →
      chunkedLoop transform key table file cs offset s =
        { storage := applyRows key table ((file.drop offset).map transform) s.storage
          upserted := s.upserted ++ (file.drop offset).map transform
          totalProcessed := s.totalProcessed + (file.drop offset).length
          reads := s.reads + (file.drop offset).length / cs + 1 } := by
  intro n
  induction n with
  | zero =>
    intro offset s hbound hoff
    have hdrop : file.drop offset = [] := by
      rw [List.drop_eq_nil_iff]; omega
    rw [chunkedLoop, hdrop]
    simp [applyRows]
  | succ n ih =>
    intro offset s hbound hoff
    rw [chunkedLoop]
    by_cases hchunk : ((file.drop offset).take cs).length = 0
    · have hdrop : file.drop offset = [] := by
        simp only [List.length_take, List.length_drop] at hchunk
        rw [List.drop_eq_nil_iff]
        omega
      rw [dif_pos hchunk, hdrop]
      simp [applyRows]
    · rw [dif_neg hchunk]
      simp only
      have hlen : ((file.drop offset).take cs).length = min cs (file.length - offset) := by
        simp [List.length_take, List.length_drop]
      by_cases hmod : (offset + ((file.drop offset).take cs).length) % cs ≠ 0
      · rw [if_pos hmod]
        -- partial final window: the read returned fewer than cs rows,
        -- so the file is exhausted after this window
        have hlt : file.length - offset < cs := by
          rcases Nat.lt_or_ge (file.length - offset) cs with h | h
          · exact h
          · exfalso
            apply hmod
            have : ((file.drop offset).take cs).length = cs := by omega
            rw [this, Nat.add_mod, hoff, Nat.mod_self]
            simp
        have htake : (file.drop offset).take cs = file.drop offset := by
          apply List.take_of_length_le
          simp only [List.length_drop]
          omega
        rw [htake]
        have hdiv : (file.drop offset).length / cs = 0 := by
          apply Nat.div_eq_of_lt
          simp only [List.length_drop]
          omega
        rw [bulk_upsert_fst, hdiv]
      · rw [if_neg hmod]
        push_neg at hmod
        -- full window: the loop continues at the next exact multiple
        have hfull : ((file.drop offset).take cs).length = cs := by
          rw [Nat.add_mod, hoff, Nat.zero_add, Nat.mod_mod_of_dvd] at hmod
          · have hdvd := Nat.dvd_of_mod_eq_zero hmod
            have hle : cs ≤ ((file.drop offset).take cs).length :=
              Nat.le_of_dvd (Nat.pos_of_ne_zero hchunk) hdvd
            omega
          · exact dvd_rfl
        rw [hfull]
        have hge : cs ≤ file.length - offset := by omega
        have hoff' : (offset + cs) % cs = 0 := by
          rw [Nat.add_mod, hoff, Nat.mod_self]
          simp
        have hbound' : file.length - (offset + cs) ≤ n := by omega
        rw [ih (offset + cs) _ hbound' hoff']
        have hsplit : file.drop offset =
            (file.drop offset).take cs ++ file.drop (offset + cs) := by
          conv_lhs => rw [← List.take_append_drop cs (file.drop offset)]
          rw [List.drop_drop]
        have hlength : (file.drop (offset + cs)).length = file.length - offset - cs := by
          simp only [List.length_drop]
          omega
        simp only [ChunkedState.mk.injEq]
        refine ⟨?_, ?_, ?_, ?_⟩
        · rw [bulk_upsert_fst, ← applyRows_append, ← List.map_append, ← hsplit]
        · conv_rhs => rw [hsplit]
          rw [List.map_append, List.append_assoc]
        · conv_rhs => rw [hsplit]
          rw [List.length_append, hfull]
          omega
        · rw [hlength]
          have hr : (file.drop offset).length = file.length - offset := by
            simp [List.length_drop]
          rw [hr]
          rw [Nat.div_eq_sub_div hcs hge]
          omega

/-- Claim C1: for every input file, whatever its size, the whole-file path
(parse everything, transform, single bulk upsert) and the chunked path
(repeated window read, transform, bulk upsert) on the same normalized file
leave storage in the same final state, hence with the same final set of
rows. -/
theorem claim_C1_chunked_whole_equiv (transform : Row → TRow)
    (key : TRow → Key) (file : List Row) (table : String) (cs : Nat)
    (st : Storage TRow Key) (hcs : 0 < cs) :
    (process_large_file_chunked transform key file table cs st).storage =
      whole_file_path transform key file table st := by
  unfold process_large_file_chunked whole_file_path
  rw [chunkedLoop_invariant transform key table file cs hcs file.length 0 _
    (by omega) (Nat.zero_mod cs)]
  rw [bulk_upsert_fst]
  simp

/-- Claim C2: for every normalized file processed by the chunked loader in a
single run, the rows handed to bulk_upsert are exactly the transformed rows
of the file in order (no window skipped, no row upserted twice), the
total_processed counter equals the number of rows in the file, and on a file
of exactly N times the window size the loader performs N window reads plus
one final empty read, having upserted exactly N times the window size
rows. -/
theorem claim_C2_chunked_totals (transform : Row → TRow) (key : TRow → Key)
    (file : List Row) (table : String) (cs : Nat) (st : Storage TRow Key)
    (hcs : 0 < cs) :
    (process_large_file_chunked transform key file table cs st).totalProcessed
        = file.length ∧
    (process_large_file_chunked transform key file table cs st).upserted
        = file.map transform ∧
    (∀ N : Nat, file.length = N * cs →
      (process_large_file_chunked transform key file table cs st).reads = N + 1 ∧
      (process_large_file_chunked transform key file table cs st).totalProcessed
        = N * cs) := by
  unfold process_large_file_chunked
  rw [chunkedLoop_invariant transform key table file cs hcs file.length 0 _
    (by omega) (Nat.zero_mod cs)]
  refine ⟨by simp, by simp, ?_⟩
  intro N hN
  refine ⟨?_, by simp [hN]⟩
  simp only [List.drop_zero]
  rw [hN, Nat.mul_div_cancel N hcs]
  omega

end StorageProofs

/-- Concrete instantiation of claim C1: window size 2 on a three-row file. -/
theorem claim_C1_witness :
    0 < 2 ∧
    (process_large_file_chunked (fun n : Nat => n + 1) (id : Nat → Nat)
        [10, 20, 30] "empresas" 2 (fun _ _ => none)).storage =
      whole_file_path (fun n : Nat => n + 1) (id : Nat → Nat)
        [10, 20, 30] "empresas" (fun _ _ => none) :=
  ⟨by decide, claim_C1_chunked_whole_equiv (fun n : Nat => n + 1) id
    [10, 20, 30] "empresas" 2 (fun _ _ => none) (by decide)⟩

/-- Concrete instantiation of claim C2: a four-row file with window size 2
is read in 2 windows plus one final empty read. -/
theorem claim_C2_witness :
    (process_large_file_chunked (fun n : Nat => n + 1) (id : Nat → Nat)
        [10, 20, 30, 40] "empresas" 2 (fun _ _ => none)).reads = 2 + 1 :=
  ((claim_C2_chunked_totals (fun n : Nat => n + 1) id [10, 20, 30, 40]
      "empresas" 2 (fun _ _ => none) (by decide)).2.2 2 (by decide)).1

/-- Claim C3: a file routed to the chunked path (normalized size strictly
above the threshold) makes process_file return the bare None of line 642,
never a (DataFrame, table-name) pair, while a file at or below the
threshold yields the pair; the two branches disagree in result shape. -/
theorem claim_C3_return_shape {DF : Type} (utf8SizeMb maxFileSizeMb : ℚ)
    (df : DF) (table : String) :
    (maxFileSizeMb < utf8SizeMb →
      process_file_result utf8SizeMb maxFileSizeMb df table
          = ProcessFileResult.bareNone ∧
      ∀ (df' : DF) (t' : String),
        process_file_result utf8SizeMb maxFileSizeMb df table
          ≠ ProcessFileResult.pair df' t') ∧
    (utf8SizeMb ≤ maxFileSizeMb →
      process_file_result utf8SizeMb maxFileSizeMb df table
        = ProcessFileResult.pair df table) := by
  constructor
  · intro h
    unfold process_file_result process_large_file_chunked_result
    rw [if_pos h]
    exact ⟨rfl, fun df' t' hcontra => ProcessFileResult.noConfusion hcontra⟩
  · intro h
    unfold process_file_result
    rw [if_neg (not_lt.mpr h)]

/-- Concrete instantiation of claim C3: a 2MB file against a 1MB threshold
comes back as the bare None. -/
theorem claim_C3_witness :
    process_file_result (2 : ℚ) 1 (0 : Nat) "estabelecimentos"
      = ProcessFileResult.bareNone :=
  ((claim_C3_return_shape (2 : ℚ) 1 (0 : Nat) "estabelecimentos").1
    (by norm_num)).1

/-- Claim C4: when the reconciliation source raises any error (import
failure, network failure, source unavailable), both enhancement steps
return the official dataframe unchanged, so the primary load proceeds with
official data and is never aborted by the reconciliation source. -/
theorem claim_C4_error_returns_official :
    ∀ (e : String) (df : List RefRow),
      enhance_motivos_data (Except.error e) df = df ∧
      enhance_paises_data (Except.error e) df = df :=
  fun _ _ => ⟨rfl, rfl⟩

theorem enhance_motivos_eq_append (external df : List RefRow) :
    enhance_motivos_data (Except.ok external) df
      = df ++ diff_motivos_data external (df.map RefRow.codigo) := by
  unfold enhance_motivos_data
  simp only
  split
  · rfl
  · next h =>
    have hnil : diff_motivos_data external (df.map RefRow.codigo) = [] := by
      cases hq : diff_motivos_data external (df.map RefRow.codigo) with
      | nil => rfl
      | cons a l => rw [hq] at h; simp at h
    rw [hnil, List.append_nil]

theorem diff_motivos_after_enhance (external df : List RefRow) :
    diff_motivos_data external
      ((df ++ diff_motivos_data external (df.map RefRow.codigo)).map
        RefRow.codigo) = [] := by
  unfold diff_motivos_data
  rw [List.filter_eq_nil_iff]
  intro r hr
  simp only [List.map_append, List.mem_append, decide_eq_true_eq, not_not]
  by_cases hmem : r.codigo ∈ df.map RefRow.codigo
  · exact Or.inl hmem
  · right
    apply List.mem_map_of_mem RefRow.codigo
    apply List.mem_filter.mpr
    exact ⟨hr, by simpa using hmem⟩

/-- Claim C5: reference reconciliation appends exactly the set difference
and is idempotent: with existing codes A and B and external source rows A,
B and C, only the C row is appended, and running the reconciliation a
second time over the resulting state appends nothing. -/
theorem claim_C5_reconciliation_idempotent :
    (∀ (external df : List RefRow),
      enhance_motivos_data (Except.ok external)
          (enhance_motivos_data (Except.ok external) df)
        = enhance_motivos_data (Except.ok external) df) ∧
    enhance_motivos_data
        (Except.ok [⟨"A", "a"⟩, ⟨"B", "b"⟩, ⟨"C", "c"⟩])
        [⟨"A", "x"⟩, ⟨"B", "y"⟩]
      = [⟨"A", "x"⟩, ⟨"B", "y"⟩] ++ [⟨"C", "c"⟩] := by
  constructor
  · intro external df
    rw [enhance_motivos_eq_append external df,
      enhance_motivos_eq_append external
        (df ++ diff_motivos_data external (df.map RefRow.codigo)),
      diff_motivos_after_enhance, List.append_nil]
  · rfl

/-- Claim C6: the numeric transformer maps the cell "1234,56" to the number
1234.56, maps the unparseable cell "abc" to null, and transforms every
other cell of the column independently, so one bad cell never aborts the
batch. -/
theorem claim_C6_decimal_coercion :
    transformNumericValue (some "1234,56") = some ((123456 : ℚ) / 100) ∧
    transformNumericValue (some "abc") = none ∧
    (∀ pre post : List (Option String),
      transformNumericColumn (pre ++ some "abc" :: post)
        = transformNumericColumn pre ++ none :: transformNumericColumn post) := by
  refine ⟨?_, rfl, ?_⟩
  · have h1 : transformNumericValue (some "1234,56")
        = some ((digitsToNat ['1', '2', '3', '4'] : ℚ)
            + (digitsToNat ['5', '6'] : ℚ) / (10 : ℚ) ^ (['5', '6'].length)) := by
      rfl
    rw [h1]
    have h2 : digitsToNat ['1', '2', '3', '4'] = 1234 := by rfl
    have h3 : digitsToNat ['5', '6'] = 56 := by rfl
    rw [h2, h3]
    norm_num
  · intro pre post
    unfold transformNumericColumn
    rw [List.map_append, List.map_cons]
    rfl

/-- Claim C7: the date transformer maps the sentinel cell "0" to null and
passes every other cell through unchanged. -/
theorem claim_C7_date_sentinel :
    cleanDateValue (some "0") = none ∧
    ∀ v : Option String, v ≠ some "0" → cleanDateValue v = v := by
  refine ⟨rfl, ?_⟩
  intro v hv
  unfold cleanDateValue
  rw [if_neg hv]

/-- Concrete instantiation of claim C7: a regular date value is passed
through unchanged. -/
theorem claim_C7_witness :
    cleanDateValue (some "20200101") = some "20200101" :=
  claim_C7_date_sentinel.2 (some "20200101") (by decide)

/-- Claim C8: the country-code transformer of the establishment category
maps "76" to the 3-character zero-padded "076" and leaves the empty string
and null unchanged. -/
theorem claim_C8_country_padding :
    transformCountryCodeValue (some "76") = some "076" ∧
    transformCountryCodeValue (some "") = some "" ∧
    transformCountryCodeValue none = none :=
  ⟨rfl, rfl, rfl⟩

/-- Claim C9: if the encoding conversion fails with any I/O error after
partially writing the output file, the partially written output file is
deleted before the error propagates; no partial output is left behind, and
no other path of the filesystem is touched. -/
theorem claim_C9_partial_output_deleted
    (iterations : List (Except String String)) (fs : FS) (outputFile : String)
    (e : String) (partialContent : String)
    (h : runConvertLoop iterations "" = Except.error (e, partialContent)) :
    ∃ fs' : FS,
      convert_file_encoding_chunked iterations fs outputFile
          = Except.error (e, fs') ∧
      fs' outputFile = none ∧
      ∀ p, p ≠ outputFile → fs' p = fs p := by
  unfold convert_file_encoding_chunked
  rw [h]
  simp only [setFile, if_pos rfl, Option.isSome_some, if_true]
  refine ⟨_, rfl, ?_, ?_⟩
  · simp [setFile]
  · intro p hp
    simp [setFile, hp]

/-- Concrete instantiation of claim C9: the conversion writes one chunk and
fails on the second; the output file is removed and the error propagated. -/
theorem claim_C9_witness :
    ∃ fs' : FS,
      convert_file_encoding_chunked [Except.ok "ab", Except.error "disk full"]
          (fun _ => none) "out.utf8.csv" = Except.error ("disk full", fs') ∧
      fs' "out.utf8.csv" = none ∧
      ∀ p, p ≠ "out.utf8.csv" → fs' p = (fun _ => none : FS) p :=
  claim_C9_partial_output_deleted [Except.ok "ab", Except.error "disk full"]
    (fun _ => none) "out.utf8.csv" "disk full" "ab" (by rfl)

/-- Claim C10: bulk_upsert called with a dataframe of zero rows returns
immediately: no SQL statement is executed and the storage state is
completely unchanged, whatever the table name. -/
theorem claim_C10_empty_upsert_noop {TRow Key : Type} [DecidableEq Key]
    (key : TRow → Key) (df : List TRow) (table : String)
    (st : Storage TRow Key) (h : df.length = 0) :
    bulk_upsert key df table st = (st, []) := by
  unfold bulk_upsert
  rw [if_pos h]

/-- Concrete instantiation of claim C10: the empty dataframe against the
cnaes table leaves the empty storage untouched and issues no SQL. -/
theorem claim_C10_witness :
    bulk_upsert (id : String → String) [] "cnaes" (fun _ _ => none)
      = ((fun _ _ => none : Storage String String), []) :=
  claim_C10_empty_upsert_noop id [] "cnaes" (fun _ _ => none) rfl

end CNPJ
